import Mathlib

/-!
Shallow embedding of `src/sync_insee.py` (INSEE death-records sync script).

The script downloads one INSEE file per year (1975..2025), parses it with
pandas under one of two schema dialects selected by `year >= 2024`, maps each
row to a fixed canonical column set, replaces every missing value by the empty
string (`df_mapped.fillna('')`), and inserts the records into a Supabase table
in batches of 1000, swallowing per-batch commit errors and accumulating a
total of successfully inserted records.

External effects (HTTP download, pandas CSV reading, the Supabase client) are
modelled as oracles (`Env.download`, `Env.commitOk`, `FileContent`); the
decision logic of the script (era dispatch, column mapping, date composition,
fillna, batching, skip-and-continue control flow, temp-file lifecycle,
process exit) is embedded as executable Lean functions.
-/

namespace InseeSync

/-- Python `str.zfill w`: left-pad with `'0'` to width `w`, keeping a leading
sign character (`+`/`-`) in front of the padding, as CPython does. Used for
`str(row[...]).zfill(2)` in `parse_insee_file` (src lines 64 and 67). -/
def pyZfill (w : Nat) (s : String) : String :=
  if w ≤ s.length then s
  else
    match s.data with
    | [] => String.mk (List.replicate w '0')
    | c :: rest =>
        if c = '-' ∨ c = '+' then
          String.mk (c :: (List.replicate (w - s.length) '0' ++ rest))
        else
          String.mk (List.replicate (w - s.length) '0' ++ (c :: rest))

/-- One data row of a post-2023 ("new format") CSV, read with
`pd.read_csv(sep=';', dtype=str, encoding='utf-8')` (src line 53). Each field
is one source column; `none` models a pandas NaN cell (`pd.notna` false).
The column list is the one named in the source comment, src lines 59-60:
ADEC, ANAIS, COMDEC, DEPDEC, DEPDOM, DEPNAIS, JDEC, JNAIS, LIEUDEC_R, MDEC,
MNAIS, PNAIS, REGDEC, REGDOM, SEXE. LIEUDEC_R is `none` on every row when the
column is absent from the file (src line 75 guards on column presence). -/
structure NewRow where
  ADEC : Option String
  ANAIS : Option String
  COMDEC : Option String
  DEPDEC : Option String
  DEPDOM : Option String
  DEPNAIS : Option String
  JDEC : Option String
  JNAIS : Option String
  LIEUDEC_R : Option String
  MDEC : Option String
  MNAIS : Option String
  PNAIS : Option String
  REGDEC : Option String
  REGDOM : Option String
  SEXE : Option String
  deriving DecidableEq

/-- One data row of a pre-2024 ("legacy format") file, read with
`pd.read_csv(sep=';', dtype=str, encoding='latin-1')` (src line 85). The
source reads each column with `df.get(...)` (src lines 91-103), so an absent
column yields `None` for every row; `none` here models both an absent column
and a NaN cell. Field names are the ASCII forms of the source column labels
Nom, Prénoms, Sexe, Date naissance, Date décès, Commune décès,
Département décès, Département domicile, Département naissance,
Pays naissance, Lieu décès, Région décès, Région domicile. -/
structure OldRow where
  Nom : Option String
  Prenoms : Option String
  Sexe : Option String
  Date_naissance : Option String
  Date_deces : Option String
  Commune_deces : Option String
  Departement_deces : Option String
  Departement_domicile : Option String
  Departement_naissance : Option String
  Pays_naissance : Option String
  Lieu_deces : Option String
  Region_deces : Option String
  Region_domicile : Option String
  deriving DecidableEq

/-- The canonical output row (`df_mapped` columns, src lines 62-105). All
thirteen string columns are `Option String` (`none` = pandas NaN/None);
`annee` is the integer year column, always set to the target year. -/
structure Record where
  nom : Option String
  prenoms : Option String
  sexe : Option String
  date_naissance : Option String
  date_deces : Option String
  commune_deces : Option String
  departement_deces : Option String
  departement_domicile : Option String
  departement_naissance : Option String
  pays_naissance : Option String
  lieu_deces : Option String
  region_deces : Option String
  region_domicile : Option String
  annee : Nat
  deriving DecidableEq

/-- The canonical column names of `df_mapped`, in the declaration order of
`Record` (`annee` is listed apart since it is the only non-string column). -/
def canonicalFieldNames : List String :=
  ["nom", "prenoms", "sexe", "date_naissance", "date_deces", "commune_deces",
   "departement_deces", "departement_domicile", "departement_naissance",
   "pays_naissance", "lieu_deces", "region_deces", "region_domicile"]

/-- The (column name, value) pairs of a record's thirteen string columns. -/
def recordFields (r : Record) : List (String × Option String) :=
  [("nom", r.nom), ("prenoms", r.prenoms), ("sexe", r.sexe),
   ("date_naissance", r.date_naissance), ("date_deces", r.date_deces),
   ("commune_deces", r.commune_deces),
   ("departement_deces", r.departement_deces),
   ("departement_domicile", r.departement_domicile),
   ("departement_naissance", r.departement_naissance),
   ("pays_naissance", r.pays_naissance), ("lieu_deces", r.lieu_deces),
   ("region_deces", r.region_deces), ("region_domicile", r.region_domicile)]

/-- The sexe mapping of the new format, `df['SEXE'].map({'1':'M','2':'F'})`
(src line 63): pandas `Series.map` with a dict sends any value not a key of
the dict (and NaN) to NaN. -/
def mapSexeNew : Option String → Option String
  | some s => if s = "1" then some "M" else if s = "2" then some "F" else none
  | none => none

/-- The composite-date lambda of src lines 64-69: when the year, month and day
cells are all non-NaN, produce `f"{y}-{str(m).zfill(2)}-{str(d).zfill(2)}"`;
otherwise `None`. The cells are strings (`dtype=str`), so `str(...)` is the
identity; no validity check of the components is performed by the source. -/
def composeDate (y m d : Option String) : Option String :=
  match y, m, d with
  | some ys, some ms, some ds =>
      some (ys ++ "-" ++ pyZfill 2 ms ++ "-" ++ pyZfill 2 ds)
  | _, _, _ => none

/-- The new-format column mapping (`df_mapped`, src lines 62-81): sexe is
remapped, the two dates are composed from year/month/day cells, place columns
pass through, `nom` and `prenoms` are hard-coded `None`, `annee` is the year. -/
def mapNewRow (year : Nat) (r : NewRow) : Record where
  sexe := mapSexeNew r.SEXE
  date_naissance := composeDate r.ANAIS r.MNAIS r.JNAIS
  date_deces := composeDate r.ADEC r.MDEC r.JDEC
  commune_deces := r.COMDEC
  departement_deces := r.DEPDEC
  departement_domicile := r.DEPDOM
  departement_naissance := r.DEPNAIS
  pays_naissance := r.PNAIS
  lieu_deces := r.LIEUDEC_R
  region_deces := r.REGDEC
  region_domicile := r.REGDOM
  annee := year
  nom := none
  prenoms := none

/-- The legacy-format column mapping (`df_mapped`, src lines 90-105): every
column passes through `df.get(...)` unchanged (no sexe remapping, no date
composition), `annee` is the year. -/
def mapOldRow (year : Nat) (r : OldRow) : Record where
  nom := r.Nom
  prenoms := r.Prenoms
  sexe := r.Sexe
  date_naissance := r.Date_naissance
  date_deces := r.Date_deces
  commune_deces := r.Commune_deces
  departement_deces := r.Departement_deces
  departement_domicile := r.Departement_domicile
  departement_naissance := r.Departement_naissance
  pays_naissance := r.Pays_naissance
  lieu_deces := r.Lieu_deces
  region_deces := r.Region_deces
  region_domicile := r.Region_domicile
  annee := year

/-- One cell of `df_mapped.fillna('')` (src line 108): a missing value becomes
the empty string; present values are unchanged. -/
def fillField : Option String → Option String
  | none => some ""
  | some s => some s

/-- `df_mapped.fillna('')` (src line 108) applied to one record: every string
column gets `fillField`; the integer column `annee` has no NaN and is
unchanged. -/
def fillnaRecord (r : Record) : Record where
  nom := fillField r.nom
  prenoms := fillField r.prenoms
  sexe := fillField r.sexe
  date_naissance := fillField r.date_naissance
  date_deces := fillField r.date_deces
  commune_deces := fillField r.commune_deces
  departement_deces := fillField r.departement_deces
  departement_domicile := fillField r.departement_domicile
  departement_naissance := fillField r.departement_naissance
  pays_naissance := fillField r.pays_naissance
  lieu_deces := fillField r.lieu_deces
  region_deces := fillField r.region_deces
  region_domicile := fillField r.region_domicile
  annee := r.annee

/-- The textual content of a downloaded file as pandas would deliver it: a
new-format table (the fifteen new columns present), a legacy-format table, or
content on which `pd.read_csv` / the column accesses raise (modelled below as
the parse-failure path, src lines 115-119). -/
inductive FileContent where
  | newRows (rows : List NewRow)
  | oldRows (rows : List OldRow)
  | unreadable
  deriving DecidableEq

/-- `parse_insee_file` (src lines 46-119). Era dispatch is `year >= 2024`
(src line 51). The new branch indexes `df['SEXE']` etc. directly, so a file
without the new column set raises and the broad `except` returns `None`
(src lines 115-119); this exception path is modelled by returning `none` when
the content does not match the selected era's layout (or is unreadable).
On success the result is the mapped rows with `fillna('')` applied. -/
def parse_insee_file (content : FileContent) (year : Nat) : Option (List Record) :=
  if year ≥ 2024 then
    match content with
    | FileContent.newRows rows =>
        some ((rows.map (mapNewRow year)).map fillnaRecord)
    | _ => none
  else
    match content with
    | FileContent.oldRows rows =>
        some ((rows.map (mapOldRow year)).map fillnaRecord)
    | _ => none

/-- The filename built by `download_insee_file` (src lines 20-25):
`deces-{year}.csv` from 2024 on, `Deces_{year}.txt` before. -/
def downloadFilename (year : Nat) : String :=
  if year ≥ 2024 then "deces-" ++ toString year ++ ".csv"
  else "Deces_" ++ toString year ++ ".txt"

/-- The read_csv arguments the parser uses for a year (src lines 53 and 85),
plus whether the era's mapping supplies the name columns from the source
(src lines 79-80 hard-code them to `None` in the new era; src lines 91-92
read them in the legacy era). -/
structure DialectSpec where
  delimiter : Char
  encoding : String
  suppliesNames : Bool
  deriving DecidableEq

/-- The dialect selected by `parse_insee_file`'s `year >= 2024` test. -/
def dialectFor (year : Nat) : DialectSpec :=
  if year ≥ 2024 then ⟨';', "utf-8", false⟩
  else ⟨';', "latin-1", true⟩

/-- A write mode of the store client: plain `.insert(...)`, or an upsert
keyed on a conflict column tuple. The source only ever uses the former. -/
inductive WriteMode where
  | insert
  | upsert (conflictKey : List String)
  deriving DecidableEq

/-- A request sent to the store, as built by
`supabase.table('insee_deces').insert(records)` (src line 132). -/
structure StoreRequest where
  table : String
  mode : WriteMode
  records : List Record
  deriving DecidableEq

/-- The commit request `insert_to_supabase` builds for one batch
(src line 132): always a plain insert into table `insee_deces`. -/
def commitRequest (records : List Record) : StoreRequest :=
  { table := "insee_deces", mode := WriteMode.insert, records := records }

/-- The outcome of one batch commit attempt: the 0-based batch position, the
request sent, and whether `.execute()` succeeded (the `try`, src lines
131-138; on failure the loop prints and continues). -/
structure BatchOutcome where
  index : Nat
  req : StoreRequest
  success : Bool
  deriving DecidableEq

/-- Record count of a batch outcome (`len(records)` of the batch). -/
def BatchOutcome.size (o : BatchOutcome) : Nat := o.req.records.length

/-- The batch partition of src lines 127-128:
`for i in range(0, len(df), batch_size): batch = df.iloc[i:i+batch_size]`.
`range(0, n, b)` (for `b > 0`) is the multiples of `b` below `n`, of which
there are `(n + b - 1) / b`; slice `i..i+b` is `drop i` then `take b`.
Python raises `ValueError` on step 0; the `b = 0` branch here is out of the
source's reachable behavior (the script always uses the default 1000). -/
def chunkList {α : Type} (b : Nat) (l : List α) : List (List α) :=
  if b = 0 then []
  else (List.range ((l.length + b - 1) / b)).map
    (fun i => (l.drop (i * b)).take b)

/-- The commit loop body over the batch list (src lines 128-138): one attempt
per batch, in order; `commitOk i` is the oracle for whether the store accepts
batch number `i` (the `try`/`except` around `.execute()`). -/
def insertBatches (commitOk : Nat → Bool) (idx : Nat) : List (List Record) → List BatchOutcome
  | [] => []
  | batch :: rest =>
      { index := idx, req := commitRequest batch, success := commitOk idx }
        :: insertBatches commitOk (idx + 1) rest

/-- The `total_inserted` accumulator (src lines 125, 133): each successful
batch adds its record count; failed batches add nothing. -/
def totalInserted : List BatchOutcome → Nat
  | [] => 0
  | o :: rest => (if o.success then o.size else 0) + totalInserted rest

/-- `insert_to_supabase` (src lines 121-141): partition into batches, attempt
each batch in order (failures are caught and skipped), return the attempt
trace and the total of successfully inserted records (the source returns the
total; the trace is the sequence of per-batch attempts the loop performs). -/
def insert_to_supabase (commitOk : Nat → Bool) (records : List Record)
    (batchSize : Nat) : List BatchOutcome × Nat :=
  let outs := insertBatches commitOk 0 (chunkList batchSize records)
  (outs, totalInserted outs)

/-- The external world of one run: `download y` is `download_insee_file y`
(src lines 14-44) — `none` when the `except` branch returns `None`, `some c`
when a temp file was written whose content pandas will see as `c`; and
`commitOk y i` tells whether the store accepts batch `i` of year `y`. -/
structure Env where
  download : Nat → Option FileContent
  commitOk : Nat → Nat → Bool

/-- The mutable state of `main`'s loop (src lines 143-178): the running
`total_records`, the set of years whose `/tmp` file currently exists, and the
years the loop has entered (the unconditional "Processing year" header,
src lines 154-156). -/
structure RunState where
  totalRecords : Nat
  tempFiles : List Nat
  attempted : List Nat
  deriving DecidableEq

/-- The parse-and-load tail of one loop iteration (src lines 164-178),
applied to the parse result: if parsing returned `None` or an empty frame,
skip — the temp file is not removed on this path (src lines 164-168);
otherwise insert, add the returned total to `total_records`, and remove the
year's temp file (src lines 170-178). -/
def loadStage (env : Env) (year : Nat) (st2 : RunState) :
    Option (List Record) → RunState
  | some (r :: rs) =>
      let inserted := (insert_to_supabase (env.commitOk year) (r :: rs) 1000).2
      { st2 with
          totalRecords := st2.totalRecords + inserted,
          tempFiles := st2.tempFiles.filter (fun z => z != year) }
  | _ => st2

/-- The download dispatch of one loop iteration (src lines 158-162), applied
to the download result: if download returned `None`, skip the year; otherwise
the year's temp file now exists and the parse result goes to `loadStage`. -/
def fetchStage (env : Env) (year : Nat) (st1 : RunState) :
    Option FileContent → RunState
  | none => st1
  | some content =>
      loadStage env year { st1 with tempFiles := st1.tempFiles ++ [year] }
        (parse_insee_file content year)

/-- One iteration of `main`'s year loop (src lines 153-178): enter the year
(the unconditional loop header), then dispatch on the download result. -/
def processYear (env : Env) (st : RunState) (year : Nat) : RunState :=
  fetchStage env year { st with attempted := st.attempted ++ [year] }
    (env.download year)

/-- `years = range(1975, 2026)` (src line 149). -/
def syncYears : List Nat := List.range' 1975 51

/-- The state at the top of `main`: no records, no temp files, no year yet. -/
def initialState : RunState := ⟨0, [], []⟩

/-- The whole year loop of `main` (src lines 153-178). -/
def mainRun (env : Env) : RunState :=
  syncYears.foldl (processYear env) initialState

/-- The environment configuration read at module load (src lines 8-9). -/
structure Config where
  supabaseUrl : Option String
  supabaseKey : Option String

/-- The process outcome of running the script: `create_client` at module
level (src line 12) raises when the URL or key environment variable is
missing, so the interpreter exits non-zero before `main` starts; otherwise
`main` runs to completion — every failure inside it is caught (download
src lines 31-44, parse src lines 115-119, batch commit src lines 131-138,
temp removal src lines 175-178) — and the script falls off the end of `main`,
exiting 0 regardless of what failed during the run. -/
def processExit (cfg : Config) (env : Env) : Nat :=
  if cfg.supabaseUrl.isNone || cfg.supabaseKey.isNone then 1
  else
    let _ := mainRun env
    0

/-- A new-format row with every cell NaN, for concrete instances. -/
def emptyNewRow : NewRow :=
  ⟨none, none, none, none, none, none, none, none, none, none, none, none,
   none, none, none⟩

/-- A legacy-format row with every cell NaN, for concrete instances. -/
def emptyOldRow : OldRow :=
  ⟨none, none, none, none, none, none, none, none, none, none, none, none,
   none⟩

/-- A canonical record with every string column NaN, for concrete instances. -/
def sampleRecord : Record :=
  ⟨none, none, none, none, none, none, none, none, none, none, none, none,
   none, 0⟩

/-- An environment in which every download fails. -/
def noDownloadEnv : Env := ⟨fun _ => none, fun _ _ => true⟩

/-- An environment in which every download yields content the parser cannot
read (the `pd.read_csv` / column-access exception path). -/
def parseFailEnv : Env := ⟨fun _ => some FileContent.unreadable, fun _ _ => true⟩

/-- An environment in which every download yields one legacy row and every
commit succeeds. -/
def loadOkEnv : Env :=
  ⟨fun _ => some (FileContent.oldRows [emptyOldRow]), fun _ _ => true⟩

/-- An environment in which only 2024 downloads (one new-format row) and
every batch commit fails. -/
def failingCommitEnv : Env :=
  ⟨fun y => if y = 2024 then some (FileContent.newRows [emptyNewRow]) else none,
   fun _ _ => false⟩

/-- A new-format row with death-date cells year 2023, month 4, day 7. -/
def rowDate747 : NewRow :=
  { emptyNewRow with ADEC := some "2023", MDEC := some "4", JDEC := some "7" }

/-- A new-format row with death-date cells year 2023 and day 7, month NaN. -/
def rowDateNoMonth : NewRow :=
  { emptyNewRow with ADEC := some "2023", JDEC := some "7" }

/-- A new-format row with death-date cells year 2023, month 4, day "00". -/
def rowDateDay00 : NewRow :=
  { emptyNewRow with ADEC := some "2023", MDEC := some "4", JDEC := some "00" }

/-- A legacy row whose sexe cell holds the raw source code "1". -/
def rowSexe1 : OldRow := { emptyOldRow with Sexe := some "1" }

/- ### Helper lemmas on the batch partition -/

lemma chunk_index_bound {b n i : Nat} (hb : 0 < b)
    (hi : i < (n + b - 1) / b) : i * b < n := by
  rcases Nat.eq_zero_or_pos n with h0 | hn
  · subst h0
    have hz : (0 + b - 1) / b = 0 := Nat.div_eq_of_lt (by omega)
    rw [hz] at hi
    exact absurd hi (Nat.not_lt_zero i)
  · have hrw : n + b - 1 = (n - 1) + b := by omega
    have hceil : (n + b - 1) / b = (n - 1) / b + 1 := by
      rw [hrw, Nat.add_div_right _ hb]
    rw [hceil] at hi
    have hle : i ≤ (n - 1) / b := by omega
    have h1 : i * b ≤ ((n - 1) / b) * b := Nat.mul_le_mul_right b hle
    have h2 : ((n - 1) / b) * b ≤ n - 1 := Nat.div_mul_le_self _ _
    omega

lemma chunk_count_mul_ge (b n : Nat) (hb : 0 < b) :
    n ≤ ((n + b - 1) / b) * b := by
  rcases Nat.eq_zero_or_pos n with h0 | hn
  · subst h0; exact Nat.zero_le _
  · have hrw : n + b - 1 = (n - 1) + b := by omega
    have hceil : (n + b - 1) / b = (n - 1) / b + 1 := by
      rw [hrw, Nat.add_div_right _ hb]
    rw [hceil, Nat.succ_mul]
    have h1 := Nat.div_add_mod (n - 1) b
    have h2 := Nat.mod_lt (n - 1) hb
    have h3 : ((n - 1) / b) * b = b * ((n - 1) / b) := Nat.mul_comm _ _
    omega

lemma flatten_slices {α : Type} (b : Nat) (l : List α) :
    ∀ k : Nat, ((List.range k).map (fun i => (l.drop (i * b)).take b)).flatten
      = l.take (k * b) := by
  intro k
  induction k with
  | zero => simp
  | succ k ih =>
      rw [List.range_succ, List.map_append, List.flatten_append, ih]
      simp only [List.map_cons, List.map_nil, List.flatten_cons,
        List.flatten_nil, List.append_nil]
      rw [Nat.succ_mul, List.take_add]

lemma chunkList_flatten {α : Type} {b : Nat} (hb : 0 < b) (l : List α) :
    (chunkList b l).flatten = l := by
  unfold chunkList
  rw [if_neg hb.ne', flatten_slices]
  exact List.take_of_length_le (chunk_count_mul_ge b l.length hb)

lemma chunkList_length {α : Type} {b : Nat} (hb : 0 < b) (l : List α) :
    (chunkList b l).length = (l.length + b - 1) / b := by
  unfold chunkList
  rw [if_neg hb.ne']
  simp

lemma chunkList_mem_length {α : Type} {b : Nat} (hb : 0 < b) {l : List α}
    {c : List α} (hc : c ∈ chunkList b l) : 0 < c.length ∧ c.length ≤ b := by
  unfold chunkList at hc
  rw [if_neg hb.ne'] at hc
  obtain ⟨i, hi, rfl⟩ := List.mem_map.mp hc
  rw [List.mem_range] at hi
  have hib := chunk_index_bound hb hi
  simp only [List.length_take, List.length_drop]
  omega

lemma chunkList_dropLast_length {α : Type} {b : Nat} (hb : 0 < b) {l : List α}
    {c : List α} (hc : c ∈ (chunkList b l).dropLast) : c.length = b := by
  unfold chunkList at hc
  rw [if_neg hb.ne'] at hc
  rcases hk : (l.length + b - 1) / b with _ | m
  · rw [hk] at hc
    simp at hc
  · rw [hk, List.range_succ, List.map_append] at hc
    simp only [List.map_cons, List.map_nil] at hc
    rw [List.dropLast_concat] at hc
    obtain ⟨i, hi, rfl⟩ := List.mem_map.mp hc
    rw [List.mem_range] at hi
    have hib : (i + 1) * b < l.length := by
      apply chunk_index_bound hb
      omega
    have hsm : (i + 1) * b = i * b + b := Nat.succ_mul i b
    simp only [List.length_take, List.length_drop]
    omega

lemma insertBatches_length (ck : Nat → Bool) (idx : Nat)
    (bs : List (List Record)) :
    (insertBatches ck idx bs).length = bs.length := by
  induction bs generalizing idx with
  | nil => rfl
  | cons batch rest ih => simp [insertBatches, ih]

lemma insertBatches_reqRecords (ck : Nat → Bool) (idx : Nat)
    (bs : List (List Record)) :
    (insertBatches ck idx bs).map (fun o => o.req.records) = bs := by
  induction bs generalizing idx with
  | nil => rfl
  | cons batch rest ih => simp [insertBatches, commitRequest, ih]

lemma insertBatches_sizes (ck : Nat → Bool) (idx : Nat)
    (bs : List (List Record)) :
    (insertBatches ck idx bs).map BatchOutcome.size = bs.map List.length := by
  induction bs generalizing idx with
  | nil => rfl
  | cons batch rest ih => simp [insertBatches, BatchOutcome.size, commitRequest, ih]

lemma totalInserted_eq_sum (outs : List BatchOutcome) :
    totalInserted outs
      = ((outs.filter (fun o => o.success)).map BatchOutcome.size).sum := by
  induction outs with
  | nil => rfl
  | cons o rest ih =>
      by_cases h : o.success = true
      · simp [totalInserted, List.filter_cons, h, ih]
      · simp [totalInserted, List.filter_cons, h, ih]

/- ### Claim theorems -/

/-- C4 (confirmed): for every record sequence and batch size `b > 0`, the
loader attempts exactly one commit per partition — the outcome trace has one
entry per partition carrying exactly that partition's records, its shape is
independent of which commits fail — and the returned total counts exactly the
records of the batches that succeeded. (At `b = 0` the Python `range` raises,
so only positive batch sizes are reachable behavior; the script always uses
1000.) -/
theorem C4_commit_failure_isolation (ck ckOther : Nat → Bool)
    (records : List Record) (b : Nat) (_hb : 0 < b) :
    ((insert_to_supabase ck records b).1).length = (chunkList b records).length
    ∧ ((insert_to_supabase ck records b).1).map (fun o => o.req.records)
        = chunkList b records
    ∧ ((insert_to_supabase ck records b).1).map BatchOutcome.size
        = ((insert_to_supabase ckOther records b).1).map BatchOutcome.size
    ∧ (insert_to_supabase ck records b).2
        = ((((insert_to_supabase ck records b).1).filter
            (fun o => o.success)).map BatchOutcome.size).sum := by
  refine ⟨insertBatches_length ck 0 _, insertBatches_reqRecords ck 0 _, ?_,
    totalInserted_eq_sum _⟩
  show (insertBatches ck 0 (chunkList b records)).map BatchOutcome.size
    = (insertBatches ckOther 0 (chunkList b records)).map BatchOutcome.size
  rw [insertBatches_sizes, insertBatches_sizes]

/-- Witness for C4: three records with batch size 2 and a commit oracle that
fails the first batch still attempt both partitions, and the total counts
only the second (successful, single-record) batch. -/
theorem C4_commit_failure_isolation_witness :
    ((insert_to_supabase (fun i => i != 0)
        [sampleRecord, sampleRecord, sampleRecord] 2).1).length = 2
    ∧ (insert_to_supabase (fun i => i != 0)
        [sampleRecord, sampleRecord, sampleRecord] 2).2 = 1 := by
  have h := C4_commit_failure_isolation (fun i => i != 0) (fun _ => true)
    [sampleRecord, sampleRecord, sampleRecord] 2 (by decide)
  exact ⟨h.1.trans (by decide), by decide⟩

/-- C5 (confirmed): for every record sequence and batch size `b > 0` the
loader partitions the sequence into `ceil(n/b)` contiguous order-preserving
batches — concatenating the partition gives back the input — each full-sized
except a possibly smaller (but nonempty) final batch, and the commit attempts
process exactly those batches in that order. -/
theorem C5_batch_partitioning (records : List Record) (b : Nat) (hb : 0 < b)
    (ck : Nat → Bool) :
    (chunkList b records).flatten = records
    ∧ (chunkList b records).length = (records.length + b - 1) / b
    ∧ (∀ c ∈ (chunkList b records).dropLast, c.length = b)
    ∧ (∀ c ∈ chunkList b records, 0 < c.length ∧ c.length ≤ b)
    ∧ ((insert_to_supabase ck records b).1).map (fun o => o.req.records)
        = chunkList b records :=
  ⟨chunkList_flatten hb records, chunkList_length hb records,
   fun _ hc => chunkList_dropLast_length hb hc,
   fun _ hc => chunkList_mem_length hb hc,
   insertBatches_reqRecords ck 0 _⟩

set_option maxRecDepth 40000 in
/-- Witness for C5: 2500 records with batch size 1000 partition into exactly
three batches of sizes 1000, 1000, 500, whose concatenation is the input. -/
theorem C5_batch_partitioning_witness :
    (chunkList 1000 (List.replicate 2500 sampleRecord)).map List.length
      = [1000, 1000, 500]
    ∧ (chunkList 1000 (List.replicate 2500 sampleRecord)).flatten
      = List.replicate 2500 sampleRecord := by
  constructor
  · simp only [chunkList, List.length_replicate]
    norm_num
    simp [List.range_succ, List.drop_replicate, List.take_replicate]
  · exact (C5_batch_partitioning (List.replicate 2500 sampleRecord) 1000
      (by decide) (fun _ => true)).1

/- ### Helper lemmas on the parser -/

lemma fillField_isSome (o : Option String) : (fillField o).isSome = true := by
  cases o <;> rfl

lemma fillnaRecord_fields (r : Record) :
    ((recordFields (fillnaRecord r)).map Prod.fst = canonicalFieldNames)
    ∧ ∀ p ∈ recordFields (fillnaRecord r), p.2.isSome = true := by
  refine ⟨rfl, ?_⟩
  intro p hp
  simp only [recordFields, fillnaRecord, List.mem_cons, List.not_mem_nil,
    or_false] at hp
  rcases hp with h|h|h|h|h|h|h|h|h|h|h|h|h <;> (subst h; exact fillField_isSome _)

lemma parse_new_rows {year : Nat} (hy : year ≥ 2024) {content : FileContent}
    {rows : List Record} (h : parse_insee_file content year = some rows) :
    ∃ nrs, content = FileContent.newRows nrs
      ∧ rows = (nrs.map (mapNewRow year)).map fillnaRecord := by
  unfold parse_insee_file at h
  rw [if_pos hy] at h
  cases content with
  | newRows nrs => exact ⟨nrs, rfl, (Option.some.inj h).symm⟩
  | oldRows ors => exact Option.noConfusion h
  | unreadable => exact Option.noConfusion h

lemma parse_old_rows {year : Nat} (hy : ¬ year ≥ 2024) {content : FileContent}
    {rows : List Record} (h : parse_insee_file content year = some rows) :
    ∃ ors, content = FileContent.oldRows ors
      ∧ rows = (ors.map (mapOldRow year)).map fillnaRecord := by
  unfold parse_insee_file at h
  rw [if_neg hy] at h
  cases content with
  | newRows nrs => exact Option.noConfusion h
  | oldRows ors => exact ⟨ors, rfl, (Option.some.inj h).symm⟩
  | unreadable => exact Option.noConfusion h

lemma parse_rows_shape {content : FileContent} {year : Nat}
    {rows : List Record} (h : parse_insee_file content year = some rows) :
    ∀ r ∈ rows, ∃ r0, r = fillnaRecord r0 := by
  intro r hr
  by_cases hy : year ≥ 2024
  · obtain ⟨nrs, -, rfl⟩ := parse_new_rows hy h
    obtain ⟨a, -, rfl⟩ := List.mem_map.mp hr
    exact ⟨_, rfl⟩
  · obtain ⟨ors, -, rfl⟩ := parse_old_rows hy h
    obtain ⟨a, -, rfl⟩ := List.mem_map.mp hr
    exact ⟨_, rfl⟩

/-- C1 (corrected): every record `parse_insee_file` returns has exactly the
canonical column set, and no column of the output is ever null — the
`fillna('')` cleanup (src line 108) replaces every null (dialect-absent
columns and missing source cells alike) with the empty string before the
frame is returned, so nothing is omitted but the claimed null is in fact the
empty string. -/
theorem C1_canonical_field_set (content : FileContent) (year : Nat)
    (rows : List Record) (h : parse_insee_file content year = some rows) :
    ∀ r ∈ rows,
      ((recordFields r).map Prod.fst = canonicalFieldNames)
      ∧ ∀ p ∈ recordFields r, p.2.isSome = true := by
  intro r hr
  obtain ⟨r0, rfl⟩ := parse_rows_shape h r hr
  exact fillnaRecord_fields r0

/-- Witness for C1: the record parsed from an all-NaN legacy row has the
canonical column list and no null column. -/
theorem C1_canonical_field_set_witness :
    ((recordFields (fillnaRecord (mapOldRow 2023 emptyOldRow))).map Prod.fst
      = canonicalFieldNames)
    ∧ ∀ p ∈ recordFields (fillnaRecord (mapOldRow 2023 emptyOldRow)),
        p.2.isSome = true := by
  have h := C1_canonical_field_set (FileContent.oldRows [emptyOldRow]) 2023
    [fillnaRecord (mapOldRow 2023 emptyOldRow)] rfl
  exact h _ (by decide)

/-- C1 counterexample: in the post-2023 era the dialect-absent `nom` column
and a date with a missing month cell come out of `parse_insee_file` as the
empty string, not as null — `fillna('')` (src line 108) has replaced them. -/
theorem C1_counterexample :
    ((parse_insee_file (FileContent.newRows [rowDateNoMonth]) 2024).getD
        []).map (fun r => (r.nom, r.date_deces))
      = [(some "", some "")] := by decide

/-- C2 (corrected): the new-era date lambda (src lines 64-69) composes
`{year}-{zfill2 month}-{zfill2 day}` whenever the three cells are all
non-null, with no validity check of the components; when any cell is null the
mapped date is null, which the final `fillna('')` then turns into the empty
string. No exception can abort row processing on this path. -/
theorem C2_composite_date (r : NewRow) (year : Nat) (a m d : String) :
    (r.ADEC = some a → r.MDEC = some m → r.JDEC = some d →
      (fillnaRecord (mapNewRow year r)).date_deces
        = some (a ++ "-" ++ pyZfill 2 m ++ "-" ++ pyZfill 2 d))
    ∧ ((r.ADEC = none ∨ r.MDEC = none ∨ r.JDEC = none) →
      (fillnaRecord (mapNewRow year r)).date_deces = some "") := by
  constructor
  · intro h1 h2 h3
    simp [fillnaRecord, mapNewRow, composeDate, h1, h2, h3, fillField]
  · intro h
    rcases h with h | h | h
    · simp [fillnaRecord, mapNewRow, composeDate, h, fillField]
    · cases hA : r.ADEC <;>
        simp [fillnaRecord, mapNewRow, composeDate, h, hA, fillField]
    · cases hA : r.ADEC <;> cases hM : r.MDEC <;>
        simp [fillnaRecord, mapNewRow, composeDate, h, hA, hM, fillField]

/-- Witness for C2: year 2023, month 4, day 7 compose to `2023-04-07`; with
the month cell missing, the output date is the empty string. -/
theorem C2_composite_date_witness :
    (fillnaRecord (mapNewRow 2024 rowDate747)).date_deces = some "2023-04-07"
    ∧ (fillnaRecord (mapNewRow 2024 rowDateNoMonth)).date_deces = some "" := by
  constructor
  · exact ((C2_composite_date rowDate747 2024 "2023" "4" "7").1
      rfl rfl rfl).trans (by decide)
  · exact (C2_composite_date rowDateNoMonth 2024 "" "" "").2
      (Or.inr (Or.inl rfl))

/-- C2 counterexample: day `"00"` is not rejected — the source composes a
date from any three non-null cells with no validity check, so the row's
output date is the string `2023-04-00`, not null. -/
theorem C2_counterexample :
    ((parse_insee_file (FileContent.newRows [rowDateDay00]) 2024).getD
        []).map Record.date_deces
      = [some "2023-04-00"] := by decide

/-- C8 (corrected): the new era maps sexe `'1'` to `'M'`, `'2'` to `'F'` and
anything else to null — which `fillna('')` turns into the empty string — so
the output is one of `M`/`F`/empty, never `male`/`female`/`unknown`; the
legacy era passes the raw source value through entirely unmapped. -/
theorem C8_sexe_values (year : Nat) (r : NewRow) (r2 : OldRow) :
    (fillnaRecord (mapNewRow year r)).sexe ∈ [some "M", some "F", some ""]
    ∧ (fillnaRecord (mapOldRow year r2)).sexe = some (r2.Sexe.getD "") := by
  constructor
  · cases hS : r.SEXE with
    | none => simp [fillnaRecord, mapNewRow, mapSexeNew, hS, fillField]
    | some s =>
        by_cases h1 : s = "1"
        · simp [fillnaRecord, mapNewRow, mapSexeNew, hS, h1, fillField]
        · by_cases h2 : s = "2" <;>
            simp [fillnaRecord, mapNewRow, mapSexeNew, hS, h1, h2, fillField]
  · cases hS : r2.Sexe <;>
      simp [fillnaRecord, mapOldRow, hS, fillField, Option.getD]

/-- C8 counterexample: a legacy row with source code `1` yields `sexe = "1"`
in the output — the raw unmapped code, not a value of the enumeration
male/female/unknown. -/
theorem C8_counterexample :
    ((parse_insee_file (FileContent.oldRows [rowSexe1]) 2023).getD
        []).map Record.sexe
      = [some "1"]
    ∧ (some "1" : Option String)
        ∉ [some "male", some "female", some "unknown"] := by decide

/-- C10 (corrected): the era boundary is `year >= 2024` in both the
downloader (filename pattern, src lines 20-25) and the parser (dialect and
mapping, src lines 51, 83); every output record's `annee` equals the target
year; but the new era's name fields are the empty string in the parser's
output (null only before the `fillna('')` cleanup). -/
theorem C10_era_boundary (year : Nat) (content : FileContent)
    (rows : List Record) (h : parse_insee_file content year = some rows) :
    (∀ r ∈ rows, r.annee = year)
    ∧ (2024 ≤ year →
        downloadFilename year = "deces-" ++ toString year ++ ".csv"
        ∧ dialectFor year = ⟨';', "utf-8", false⟩
        ∧ (∃ nrs, content = FileContent.newRows nrs)
        ∧ ∀ r ∈ rows, r.nom = some "" ∧ r.prenoms = some "")
    ∧ (year < 2024 →
        downloadFilename year = "Deces_" ++ toString year ++ ".txt"
        ∧ dialectFor year = ⟨';', "latin-1", true⟩
        ∧ ∃ ors, content = FileContent.oldRows ors) := by
  by_cases hy : year ≥ 2024
  · obtain ⟨nrs, rfl, rfl⟩ := parse_new_rows hy h
    refine ⟨?_, ?_, ?_⟩
    · intro r hr
      obtain ⟨a, ha, rfl⟩ := List.mem_map.mp hr
      obtain ⟨a0, -, rfl⟩ := List.mem_map.mp ha
      rfl
    · intro _
      refine ⟨by rw [downloadFilename, if_pos hy], by rw [dialectFor, if_pos hy],
        ⟨nrs, rfl⟩, ?_⟩
      intro r hr
      obtain ⟨a, ha, rfl⟩ := List.mem_map.mp hr
      obtain ⟨a0, -, rfl⟩ := List.mem_map.mp ha
      exact ⟨rfl, rfl⟩
    · intro hlt
      omega
  · obtain ⟨ors, rfl, rfl⟩ := parse_old_rows hy h
    refine ⟨?_, ?_, ?_⟩
    · intro r hr
      obtain ⟨a, ha, rfl⟩ := List.mem_map.mp hr
      obtain ⟨a0, -, rfl⟩ := List.mem_map.mp ha
      rfl
    · intro hge
      omega
    · intro _
      exact ⟨by rw [downloadFilename, if_neg hy], by rw [dialectFor, if_neg hy],
        ⟨ors, rfl⟩⟩

/-- Witness for C10: concrete filenames at the boundary years and the `annee`
column of a concrete new-era parse. -/
theorem C10_era_boundary_witness :
    downloadFilename 2024 = "deces-2024.csv"
    ∧ downloadFilename 2023 = "Deces_2023.txt"
    ∧ ((parse_insee_file (FileContent.newRows [emptyNewRow]) 2024).getD
        []).map Record.annee = [2024] := by
  have h := C10_era_boundary 2024 (FileContent.newRows [emptyNewRow])
    (([emptyNewRow].map (mapNewRow 2024)).map fillnaRecord) rfl
  exact ⟨((h.2.1 (by decide)).1).trans (by decide), by decide, by decide⟩

/-- C10 counterexample: in the new era the name fields of the parser's output
records are the empty string, not null. -/
theorem C10_counterexample :
    ((parse_insee_file (FileContent.newRows [emptyNewRow]) 2025).getD []).map
        (fun r => (r.nom, r.prenoms)) = [(some "", some "")] := by decide

/- ### Helper lemmas on the orchestrator -/

lemma loadStage_attempted (env : Env) (year : Nat) (st2 : RunState)
    (p : Option (List Record)) :
    (loadStage env year st2 p).attempted = st2.attempted := by
  cases p with
  | none => rfl
  | some rows => cases rows <;> rfl

lemma fetchStage_attempted (env : Env) (year : Nat) (st1 : RunState)
    (d : Option FileContent) :
    (fetchStage env year st1 d).attempted = st1.attempted := by
  cases d with
  | none => rfl
  | some content => exact loadStage_attempted env year _ _

lemma processYear_attempted (env : Env) (st : RunState) (year : Nat) :
    (processYear env st year).attempted = st.attempted ++ [year] := by
  unfold processYear
  exact fetchStage_attempted env year _ _

lemma foldl_attempted (env : Env) (ys : List Nat) (st : RunState) :
    (ys.foldl (processYear env) st).attempted = st.attempted ++ ys := by
  induction ys generalizing st with
  | nil => simp
  | cons y ys ih =>
      rw [List.foldl_cons, ih, processYear_attempted]
      simp

lemma processYear_download_none {env : Env} {y : Nat}
    (h : env.download y = none) (st : RunState) :
    processYear env st y = { st with attempted := st.attempted ++ [y] } := by
  unfold processYear
  rw [h]
  rfl

lemma processYear_parse_failed {env : Env} {y : Nat} {content : FileContent}
    (h : env.download y = some content)
    (hp : parse_insee_file content y = none ∨ parse_insee_file content y = some [])
    (st : RunState) :
    processYear env st y = { st with attempted := st.attempted ++ [y],
                                     tempFiles := st.tempFiles ++ [y] } := by
  unfold processYear
  rw [h]
  show loadStage env y _ (parse_insee_file content y) = _
  rcases hp with hp | hp <;> rw [hp] <;> rfl

/-- C6 (confirmed): no single period's fetch or parse failure aborts the run
— the loop enters every year of the configured range in order no matter what
the environment does; a year whose download returns `None` is skipped with
only the loop header recorded, and a year whose parse returns `None` or an
empty frame contributes no records. The embedding is total, so no exception
propagates out of a period. -/
theorem C6_period_isolation (env : Env) :
    (mainRun env).attempted = syncYears
    ∧ (∀ (st : RunState) (y : Nat), env.download y = none →
        processYear env st y = { st with attempted := st.attempted ++ [y] })
    ∧ (∀ (st : RunState) (y : Nat) (content : FileContent),
        env.download y = some content →
        parse_insee_file content y = none ∨ parse_insee_file content y = some [] →
        (processYear env st y).totalRecords = st.totalRecords) := by
  refine ⟨?_, fun st y h => processYear_download_none h st, ?_⟩
  · rw [mainRun, foldl_attempted]
    rfl
  · intro st y content h hp
    rw [processYear_parse_failed h hp st]

/-- Witness for C6: in an environment in which every download fails, the loop
still enters all 51 years, and year 1975 is skipped with no other change. -/
theorem C6_period_isolation_witness :
    (mainRun noDownloadEnv).attempted = syncYears
    ∧ processYear noDownloadEnv initialState 1975
      = { initialState with attempted := [1975] } := by
  have h := C6_period_isolation noDownloadEnv
  exact ⟨h.1, (h.2.1 initialState 1975 rfl).trans (by decide)⟩

/-- C3 (corrected): the process outcome depends only on the presence of the
store configuration. A missing URL or key makes `create_client` raise at
module load (non-zero outcome, src lines 8-12); with both present the run
always exits 0 — period failures and batch-commit failures are swallowed
(src lines 135-138) and never surface in the process outcome. -/
theorem C3_exit_contract (cfg : Config) (env envOther : Env) :
    processExit cfg env = processExit cfg envOther
    ∧ ((cfg.supabaseUrl = none ∨ cfg.supabaseKey = none) →
        processExit cfg env = 1)
    ∧ (cfg.supabaseUrl ≠ none → cfg.supabaseKey ≠ none →
        processExit cfg env = 0) := by
  refine ⟨rfl, ?_, ?_⟩
  · intro h
    unfold processExit
    rcases h with h | h <;> simp [h]
  · intro h1 h2
    unfold processExit
    rw [if_neg]
    simp only [Bool.or_eq_true, Option.isNone_iff_eq_none]
    push_neg
    exact ⟨h1, h2⟩

/-- Witness for C3's amended statement: with the URL missing the outcome is
non-zero; with both settings present the outcome is zero even though every
download in `noDownloadEnv` fails. -/
theorem C3_exit_contract_witness :
    processExit ⟨none, some "key"⟩ noDownloadEnv = 1
    ∧ processExit ⟨some "https://example.supabase.co", some "key"⟩
        noDownloadEnv = 0 := by
  have h1 := C3_exit_contract ⟨none, some "key"⟩ noDownloadEnv noDownloadEnv
  have h2 := C3_exit_contract ⟨some "https://example.supabase.co", some "key"⟩
    noDownloadEnv noDownloadEnv
  exact ⟨h1.2.1 (Or.inl rfl), h2.2.2 (by decide) (by decide)⟩

set_option maxRecDepth 4000 in
/-- C3 counterexample: a run whose only processed year has its single batch
commit fail (the store rejects every batch) still exits 0: the error is
swallowed inside `insert_to_supabase` (src lines 135-138), `main` finishes
normally, and the process outcome is success, not failure. -/
theorem C3_counterexample :
    processExit ⟨some "https://example.supabase.co", some "key"⟩
        failingCommitEnv = 0
    ∧ ((insert_to_supabase (failingCommitEnv.commitOk 2024)
        ((parse_insee_file (FileContent.newRows [emptyNewRow]) 2024).getD [])
        1000).1).map (fun o => o.success) = [false]
    ∧ (mainRun failingCommitEnv).totalRecords = 0 := by decide

/-- C7 (corrected): the temp file is removed only on the load path. A year
whose download fails creates no file; a year whose parse fails or yields no
records leaves its temp file behind — the `os.remove` (src lines 174-178) is
only reached after a successful parse and insert; on the load path the file
is removed. -/
theorem C7_temp_file_lifecycle (env : Env) (st : RunState) (y : Nat)
    (content : FileContent) (h : env.download y = some content) :
    ((parse_insee_file content y = none ∨ parse_insee_file content y = some []) →
      (processYear env st y).tempFiles = st.tempFiles ++ [y])
    ∧ (∀ (r : Record) (rs : List Record),
        parse_insee_file content y = some (r :: rs) →
        y ∉ (processYear env st y).tempFiles) := by
  constructor
  · intro hp
    rw [processYear_parse_failed h hp st]
  · intro r rs hp
    unfold processYear
    rw [h]
    show y ∉ (loadStage env y _ (parse_insee_file content y)).tempFiles
    rw [hp]
    simp [loadStage, List.mem_filter]

/-- Witness for C7: a parse failure at 1975 leaves the 1975 temp file in
place; a successful legacy parse and load at 1975 removes it. -/
theorem C7_temp_file_lifecycle_witness :
    (processYear parseFailEnv initialState 1975).tempFiles = [1975]
    ∧ 1975 ∉ (processYear loadOkEnv initialState 1975).tempFiles := by
  have h1 := (C7_temp_file_lifecycle parseFailEnv initialState 1975
    FileContent.unreadable rfl).1 (Or.inl rfl)
  have h2 := (C7_temp_file_lifecycle loadOkEnv initialState 1975
    (FileContent.oldRows [emptyOldRow]) rfl).2
    (fillnaRecord (mapOldRow 1975 emptyOldRow)) [] rfl
  exact ⟨h1.trans (by decide), h2⟩

set_option maxRecDepth 4000 in
/-- C7 counterexample: after a full run in which 1975's download succeeds but
its parse fails (and every other download fails), the 1975 temp file still
exists — it was not removed on that exit path of the period. -/
theorem C7_counterexample :
    (mainRun ⟨fun y => if y = 1975 then some FileContent.unreadable else none,
        fun _ _ => true⟩).tempFiles = [1975] := by decide

lemma insertBatches_req (ck : Nat → Bool) (idx : Nat)
    (bs : List (List Record)) (o : BatchOutcome)
    (ho : o ∈ insertBatches ck idx bs) :
    ∃ batch, o.req = commitRequest batch := by
  induction bs generalizing idx with
  | nil => cases ho
  | cons batch rest ih =>
      rcases List.mem_cons.mp ho with h | h
      · exact ⟨batch, by rw [h]⟩
      · exact ih (idx + 1) h

/-- C9 (corrected): the loader supports a single write mode — every commit
request of every run is a plain insert into table `insee_deces` with no
conflict key; no upsert mode exists, and the canonical record has no
`numero_acte` column. Duplicate handling is left to the store: a rejected
batch is recorded as a failed attempt whose records are not counted (C4),
not silently applied. -/
theorem C9_write_modes (ck : Nat → Bool) (records : List Record) (b : Nat)
    (o : BatchOutcome) (ho : o ∈ (insert_to_supabase ck records b).1) :
    o.req.mode = WriteMode.insert ∧ o.req.table = "insee_deces" := by
  obtain ⟨batch, hb⟩ := insertBatches_req ck 0 (chunkList b records) o ho
  rw [hb]
  exact ⟨rfl, rfl⟩

/-- Witness for C9: the single outcome of committing one record is a plain
insert into `insee_deces`. -/
theorem C9_write_modes_witness :
    (⟨0, commitRequest [sampleRecord], true⟩ : BatchOutcome).req.mode
      = WriteMode.insert
    ∧ (⟨0, commitRequest [sampleRecord], true⟩ : BatchOutcome).req.table
      = "insee_deces" :=
  C9_write_modes (fun _ => true) [sampleRecord] 1000 _ (by decide)

/-- C9 counterexample: the request built for every batch (src line 132) is a
plain insert — not an upsert keyed on the claimed conflict tuple — and
`numero_acte` is not even a column of the canonical record, so the claimed
conflict tuple cannot be formed from the schema. -/
theorem C9_counterexample :
    ((insert_to_supabase (fun _ => true) [sampleRecord] 1000).1).map
        (fun o => o.req.mode) = [WriteMode.insert]
    ∧ WriteMode.insert ≠ WriteMode.upsert
        ["nom", "prenoms", "date_naissance", "date_deces", "numero_acte"]
    ∧ "numero_acte" ∉ canonicalFieldNames := by decide

end InseeSync
